import Mathlib

/-!
Shallow embedding of the order-synchronization adapter
(`integration_service.py`): the country-code resolver, the validated
warehouse data model and the `map_order_to_wms_payload` transformation.

Python's semi-structured dicts are embedded as structures with `Option`
fields (an absent key is `none`); monetary floats are embedded as exact
rationals `ℚ`; `round(x, 2)` is rounding to the nearest hundredth; a
function that returns `None` on failure while printing a classified error
message is embedded as returning `Except` with the corresponding error
constructor, together with the list of log lines it prints.
-/

namespace IntegrationService

/-- Python `str.lower()`, character by character. -/
def pyLower (s : String) : String := ⟨s.data.map Char.toLower⟩

/-- Python `str.upper()`, character by character. -/
def pyUpper (s : String) : String := ⟨s.data.map Char.toUpper⟩

/-- Python `str.isalpha()` on a string already known to be non-empty. -/
def pyIsAlpha (s : String) : Bool := s.data.all Char.isAlpha

/-- Python `str.strip()`: remove leading and trailing whitespace. -/
def pyStrip (s : String) : String :=
  ⟨((s.data.dropWhile Char.isWhitespace).reverse.dropWhile Char.isWhitespace).reverse⟩

/-- Environment default `WMS_WAREHOUSE_ID` from `integration_service.py`. -/
def WMS_WAREHOUSE_ID : String := "warehouse_001"

/-- `COUNTRY_CODE_MAP` from `integration_service.py`, as an association list. -/
def COUNTRY_CODE_MAP : List (String × String) :=
  [("sweden", "SE"), ("united states", "US"), ("united kingdom", "GB"),
   ("norway", "NO"), ("denmark", "DK"), ("finland", "FI"), ("germany", "DE"),
   ("france", "FR"), ("spain", "ES"), ("italy", "IT"), ("netherlands", "NL"),
   ("canada", "CA"), ("australia", "AU"), ("japan", "JP"), ("singapore", "SG")]

/-- `get_country_code`: convert country names to ISO 3166-1 alpha-2 codes.
`if not country_name` is Python truthiness on an optional string, so both
`None` and the empty string fall back to `"US"`. -/
def get_country_code (country_name : Option String) : String :=
  match country_name with
  | none => "US"
  | some s =>
    if s.isEmpty then "US"
    else if s.length = 2 && pyIsAlpha s then pyUpper s
    else ((COUNTRY_CODE_MAP.lookup (pyLower s)).getD "US")

/-!
Exact rational arithmetic, written with `mkRat` so that the kernel can
evaluate it on concrete inputs (the standard `ℚ` operations do not reduce
in the kernel); each operation is proved equal to the standard one.
-/

/-- Exact product of two rationals. -/
def qMul (a b : ℚ) : ℚ := mkRat (a.num * b.num) (a.den * b.den)

/-- Exact sum of two rationals. -/
def qAdd (a b : ℚ) : ℚ := mkRat (a.num * b.den + b.num * a.den) (a.den * b.den)

/-- Exact difference of two rationals. -/
def qSub (a b : ℚ) : ℚ := mkRat (a.num * b.den - b.num * a.den) (a.den * b.den)

/-- Exact absolute value of a rational. -/
def qAbs (a : ℚ) : ℚ := mkRat |a.num| a.den

theorem qMul_eq (a b : ℚ) : qMul a b = a * b := by
  rw [qMul, Rat.mkRat_eq_div]
  push_cast
  conv_rhs => rw [← Rat.num_div_den a, ← Rat.num_div_den b]
  rw [div_mul_div_comm]

theorem qAdd_eq (a b : ℚ) : qAdd a b = a + b := by
  rw [qAdd, Rat.mkRat_eq_div]
  push_cast
  conv_rhs => rw [← Rat.num_div_den a, ← Rat.num_div_den b]
  rw [div_add_div _ _ (by positivity) (by positivity)]
  ring_nf

theorem qSub_eq (a b : ℚ) : qSub a b = a - b := by
  rw [qSub, Rat.mkRat_eq_div]
  push_cast
  conv_rhs => rw [← Rat.num_div_den a, ← Rat.num_div_den b]
  rw [div_sub_div _ _ (by positivity) (by positivity)]
  ring_nf

theorem qAbs_eq (a : ℚ) : qAbs a = |a| := by
  rw [qAbs, Rat.mkRat_eq_div]
  conv_rhs => rw [← Rat.num_div_den a]
  rw [abs_div]
  push_cast
  rw [abs_of_pos (a := (a.den : ℚ)) (by positivity)]

/-- Rounding a rational to the nearest integer, in the `⌊x + 1/2⌋` form. -/
def pyRound (q : ℚ) : ℤ := Rat.floor (qAdd q (mkRat 1 2))

theorem pyRound_eq (q : ℚ) : pyRound q = round q := by
  rw [pyRound, round_eq, qAdd_eq]
  have h2 : mkRat 1 2 = 1 / 2 := by rw [Rat.mkRat_eq_div]; norm_num
  rw [h2, Rat.floor_def', Rat.floor_def]

/-- Rounding to 2 decimal places, the embedding of Python `round(x, 2)`
on the exact rational value. -/
def roundTo2 (q : ℚ) : ℚ := mkRat (pyRound (qMul q 100)) 100

theorem roundTo2_eq (q : ℚ) : roundTo2 q = ((round (q * 100) : ℤ) : ℚ) / 100 := by
  rw [roundTo2, Rat.mkRat_eq_div, pyRound_eq, qMul_eq]
  norm_num

/-- The `price` block of an upstream item (`item["price"]`). -/
structure PriceBlock where
  sku : Option String
  amount : Option ℚ
  deriving Repr, DecidableEq

/-- One purchased item of the upstream order document. -/
structure Item where
  name : Option String
  qty : Option Int
  price : Option PriceBlock
  deriving Repr, DecidableEq

/-- `item.get("price", {}).get("sku")`. -/
def itemSku (item : Item) : Option String := item.price.bind PriceBlock.sku

/-- `float(item.get("price", {}).get("amount", 0))`. -/
def itemAmount (item : Item) : ℚ := (item.price.bind PriceBlock.amount).getD 0

/-- `if not sku: continue` — the item is kept iff its SKU is present and
non-empty (Python truthiness on the string). -/
def itemHasSku (item : Item) : Bool :=
  match itemSku item with
  | none => false
  | some s => !s.isEmpty

/-- The upstream `contactSnapshot` dict; every key may be absent. -/
structure ContactSnapshot where
  id : Option String
  firstName : Option String
  lastName : Option String
  email : Option String
  phone : Option String
  address1 : Option String
  address2 : Option String
  city : Option String
  postalCode : Option String
  country : Option String
  deriving Repr, DecidableEq

/-- The upstream e-commerce order document read by the transformer.
`contactSnapshot` is not optional because the source reads it as
`data.get("contactSnapshot", {})`: an absent dict behaves exactly like a
snapshot with every key absent. -/
structure EcommerceOrder where
  _id : Option String
  contactSnapshot : ContactSnapshot
  items : List Item
  amount : Option ℚ
  currency : Option String
  notes : Option String
  deriving Repr, DecidableEq

/-- Pydantic `CustomerNotification`. -/
structure CustomerNotification where
  enabled : Bool
  value : Option String
  deriving Repr, DecidableEq

/-- Pydantic `ShippingAddress`. -/
structure ShippingAddress where
  customerNumber : String
  name : String
  address1 : Option String
  address2 : Option String
  postalCode : String
  city : String
  countryCode : String
  phoneNotification : CustomerNotification
  emailNotification : CustomerNotification
  deriving Repr, DecidableEq

/-- Pydantic `OrderLineItem` (the raw field values; the invariants the
model enforces are in `lineItemViolation`). -/
structure OrderLineItem where
  lineNumber : Nat
  productSku : String
  quantity : Int
  productName : String
  unitPrice : ℚ
  totalPrice : ℚ
  deriving Repr, DecidableEq

/-- Pydantic `WarehouseOrder` (raw field values; `deliveryDate` is a day
count, validation in `validateWarehouseOrder`). -/
structure WarehouseOrder where
  warehouseId : String
  orderNumber : String
  deliveryDate : Nat
  orderNotes : Option String
  totalValue : Option ℚ
  currency : String
  shippingAddress : ShippingAddress
  lineItems : List OrderLineItem
  shippingMethod : String
  priority : String
  deriving Repr, DecidableEq

/-- The invariant violations the pydantic models can raise, abstracting the
text of the corresponding validation messages. -/
inductive Violation where
  | quantityNotPositive
  | unitPriceNegative
  | totalPriceNegative
  | totalPriceMismatch
  | currencyLength
  | emptyLineItems
  deriving Repr, DecidableEq

/-- Field validation of one `OrderLineItem`, in pydantic field order:
`quantity` (`gt=0`), `unitPrice` (`ge=0`), `totalPrice` (`ge=0`), then
`validate_total_price`, which only runs when `quantity` and `unitPrice`
validated and raises when `abs(v - quantity * unitPrice) > 0.01`. -/
def lineItemViolation (li : OrderLineItem) : Option Violation :=
  if li.quantity ≤ 0 then some .quantityNotPositive
  else if li.unitPrice < 0 then some .unitPriceNegative
  else if li.totalPrice < 0 then some .totalPriceNegative
  else if mkRat 1 100 < qAbs (qSub li.totalPrice (qMul (li.quantity : ℚ) li.unitPrice)) then
    some .totalPriceMismatch
  else none

/-- First invariant violation among the line items, scanning in order. -/
def firstLineViolation : List OrderLineItem → Option Violation
  | [] => none
  | li :: rest =>
    match lineItemViolation li with
    | some v => some v
    | none => firstLineViolation rest

/-- Construction-time validation of `WarehouseOrder`: `currency` must have
length exactly 3 (`min_length=3, max_length=3`) and is upper-cased by
`validate_currency`; `lineItems` must be non-empty (`min_length=1`) and
each line item must validate. On success the fully validated order is
returned; on failure the violation. -/
def validateWarehouseOrder (o : WarehouseOrder) : Except Violation WarehouseOrder :=
  if o.currency.length ≠ 3 then .error .currencyLength
  else if o.lineItems.isEmpty then .error .emptyLineItems
  else
    match firstLineViolation o.lineItems with
    | some v => .error v
    | none => .ok { o with currency := pyUpper o.currency }

/-- The classified failures of `map_order_to_wms_payload` (the source
returns `None` in each case, distinguished by the error message printed). -/
inductive TransformError where
  | invalidInput
  | noItems
  | noValidItems
  | validationError (v : Violation)
  deriving Repr, DecidableEq

/-- A log line of `map_order_to_wms_payload`: every `print` in the source
is prefixed with `[{process_id}] `. -/
def tag (process_id msg : String) : String := "[" ++ process_id ++ "] " ++ msg

/-- An `ERROR`-level log line of `map_order_to_wms_payload`. -/
def errLine (process_id msg : String) : String := tag process_id ("ERROR: " ++ msg)

/-- Python `f"{x}"` on an optional string: `None` renders as `"None"`. -/
def pyFStr (o : Option String) : String :=
  match o with
  | some s => s
  | none => "None"

/-- The line item `map_order_to_wms_payload` appends for the item at
0-based position `index`: `quantity = int(item.get("qty", 1))`,
`unit_price = float(item.get("price", {}).get("amount", 0))`,
`total_price = round(unit_price * quantity, 2)`, `lineNumber = index + 1`. -/
def mkLineItem (index : Nat) (item : Item) : OrderLineItem :=
  { lineNumber := index + 1,
    productSku := (itemSku item).getD "",
    quantity := item.qty.getD 1,
    productName := item.name.getD "Unknown Product",
    unitPrice := itemAmount item,
    totalPrice := roundTo2 (qMul (itemAmount item) (item.qty.getD 1 : ℚ)) }

/-- The line-item construction loop of `map_order_to_wms_payload`:
`for index, item in enumerate(items)`, skipping items without a SKU and
otherwise appending the computed line item; `index` is the 0-based
position in the original sequence. -/
def buildLineItems : Nat → List Item → List OrderLineItem
  | _, [] => []
  | index, item :: rest =>
    if itemHasSku item then mkLineItem index item :: buildLineItems (index + 1) rest
    else buildLineItems (index + 1) rest

/-- The `WARNING: Skipping item without SKU` log lines the loop prints. -/
def skipWarnings (process_id : String) : List Item → List String
  | [] => []
  | item :: rest =>
    if itemHasSku item then skipWarnings process_id rest
    else
      tag process_id ("WARNING: Skipping item without SKU: " ++ item.name.getD "Unknown")
        :: skipWarnings process_id rest

/-- The `payload_data` dict built by `map_order_to_wms_payload` before
pydantic validation. -/
def buildPayload (od : EcommerceOrder) (today : Nat) : WarehouseOrder :=
  let order_id := od._id.getD ""
  let customer_info := od.contactSnapshot
  { warehouseId := WMS_WAREHOUSE_ID,
    orderNumber := "ECOM-" ++ order_id,
    deliveryDate := today + 1,
    orderNotes := some (od.notes.getD ("E-commerce order: " ++ order_id)),
    totalValue := od.amount,
    currency := pyUpper (od.currency.getD "USD"),
    shippingAddress :=
      { customerNumber := "CUSTOMER-" ++ pyFStr customer_info.id,
        name := pyStrip (customer_info.firstName.getD "" ++ " " ++ customer_info.lastName.getD ""),
        address1 := customer_info.address1,
        address2 := customer_info.address2,
        postalCode := customer_info.postalCode.getD "00000",
        city := customer_info.city.getD "Unknown City",
        countryCode := get_country_code customer_info.country,
        phoneNotification :=
          { enabled := !(customer_info.phone.getD "").isEmpty,
            value := customer_info.phone },
        emailNotification :=
          { enabled := !(customer_info.email.getD "").isEmpty,
            value := customer_info.email } },
    lineItems := buildLineItems 0 od.items,
    shippingMethod := "standard",
    priority := "normal" }

instance : DecidableEq (Except TransformError WarehouseOrder) := fun a b =>
  match a, b with
  | .ok x, .ok y => decidable_of_iff (x = y) (by simp)
  | .error x, .error y => decidable_of_iff (x = y) (by simp)
  | .ok _, .error _ => isFalse (by simp)
  | .error _, .ok _ => isFalse (by simp)

/-- Result of the transformation together with the log lines printed. -/
structure TransformOutput where
  result : Except TransformError WarehouseOrder
  log : List String
  deriving Repr, DecidableEq

/-- `map_order_to_wms_payload`: transform an e-commerce order into the
warehouse format. `data = none` embeds a falsy input dict; `today` is the
current date (a day count) used for the next-day `deliveryDate`. -/
def map_order_to_wms_payload (data : Option EcommerceOrder) (process_id : String)
    (today : Nat) : TransformOutput :=
  let intro := tag process_id "INFO: Mapping e-commerce order to warehouse format..."
  match data with
  | none => ⟨.error .invalidInput, [intro, errLine process_id "Invalid order data provided"]⟩
  | some od =>
    if (od._id.getD "").isEmpty then
      ⟨.error .invalidInput, [intro, errLine process_id "Invalid order data provided"]⟩
    else if od.items.isEmpty then
      ⟨.error .noItems, [intro, errLine process_id "No items found in order"]⟩
    else
      let line_items := buildLineItems 0 od.items
      let warnings := skipWarnings process_id od.items
      if line_items.isEmpty then
        ⟨.error .noValidItems,
         intro :: warnings ++ [errLine process_id "No valid line items after processing"]⟩
      else
        match validateWarehouseOrder (buildPayload od today) with
        | .ok o =>
          ⟨.ok o, intro :: warnings ++ [tag process_id "SUCCESS: Order mapped and validated"]⟩
        | .error v =>
          ⟨.error (.validationError v),
           intro :: warnings ++ [errLine process_id "Failed to map order data"]⟩

/-!
Validity predicates, written from the spec's data-model invariants: a line
item must have strictly positive quantity, non-negative unit and total
price, and a total price within 0.01 of `quantity * unitPrice`; an order
must have a non-empty line-item list of valid line items.
-/

/-- The spec's line-item invariants, as a decidable predicate. -/
def lineItemValid (li : OrderLineItem) : Bool :=
  decide (0 < li.quantity) && decide (0 ≤ li.unitPrice) && decide (0 ≤ li.totalPrice)
    && decide (|li.totalPrice - (li.quantity : ℚ) * li.unitPrice| ≤ 1 / 100)

/-- The spec's order invariants on the line items. -/
def orderValid (o : WarehouseOrder) : Bool :=
  !o.lineItems.isEmpty && o.lineItems.all lineItemValid

/-- Which line items witness a given violation. -/
def liViolationHolds (v : Violation) (li : OrderLineItem) : Bool :=
  match v with
  | .quantityNotPositive => decide (li.quantity ≤ 0)
  | .unitPriceNegative => decide (li.unitPrice < 0)
  | .totalPriceNegative => decide (li.totalPrice < 0)
  | .totalPriceMismatch => decide (1 / 100 < |li.totalPrice - (li.quantity : ℚ) * li.unitPrice|)
  | _ => false

/-- Whether a violation actually holds of the raw payload. -/
def violationHolds (v : Violation) (w : WarehouseOrder) : Bool :=
  match v with
  | .currencyLength => decide (w.currency.length ≠ 3)
  | .emptyLineItems => w.lineItems.isEmpty
  | _ => w.lineItems.any (liViolationHolds v)

theorem hundredth_eq : mkRat 1 100 = 1 / 100 := by
  rw [Rat.mkRat_eq_div]; norm_num

theorem lineItemViolation_none_iff (li : OrderLineItem) :
    lineItemViolation li = none ↔ lineItemValid li = true := by
  rw [lineItemViolation, lineItemValid]
  rw [hundredth_eq, qAbs_eq, qSub_eq, qMul_eq]
  split_ifs with h1 h2 h3 h4 <;> simp_all

theorem lineItemViolation_some_holds (li : OrderLineItem) (v : Violation) :
    lineItemViolation li = some v → liViolationHolds v li = true := by
  rw [lineItemViolation, hundredth_eq, qAbs_eq, qSub_eq, qMul_eq]
  split_ifs with h1 h2 h3 h4 <;> intro h
  · injection h with h; subst h; simp [liViolationHolds, h1]
  · injection h with h; subst h; simp [liViolationHolds, h2]
  · injection h with h; subst h; simp [liViolationHolds, h3]
  · injection h with h; subst h; simp only [liViolationHolds, decide_eq_true_eq]; exact h4
  · cases h

theorem firstLineViolation_none (l : List OrderLineItem) :
    firstLineViolation l = none → ∀ li ∈ l, lineItemViolation li = none := by
  induction l with
  | nil => intro _ li h; cases h
  | cons x rest ih =>
    intro h li hm
    rw [firstLineViolation] at h
    cases hx : lineItemViolation x with
    | some v => rw [hx] at h; cases h
    | none =>
      rw [hx] at h
      cases hm with
      | head => exact hx
      | tail _ ht => exact ih h li ht

theorem firstLineViolation_some (l : List OrderLineItem) (v : Violation) :
    firstLineViolation l = some v → ∃ li ∈ l, lineItemViolation li = some v := by
  induction l with
  | nil => intro h; cases h
  | cons x rest ih =>
    intro h
    rw [firstLineViolation] at h
    cases hx : lineItemViolation x with
    | some w =>
      rw [hx] at h
      cases h
      exact ⟨x, List.mem_cons_self x rest, hx⟩
    | none =>
      rw [hx] at h
      obtain ⟨li, hm, hv⟩ := ih h
      exact ⟨li, List.mem_cons_of_mem x hm, hv⟩

theorem validateWarehouseOrder_ok_iff (w o : WarehouseOrder) :
    validateWarehouseOrder w = .ok o ↔
      w.currency.length = 3 ∧ w.lineItems.isEmpty = false ∧
        firstLineViolation w.lineItems = none ∧
        { w with currency := pyUpper w.currency } = o := by
  rw [validateWarehouseOrder]
  split_ifs with h1 h2
  · simp [h1]
  · simp_all
  · cases hv : firstLineViolation w.lineItems with
    | some v => simp_all
    | none =>
      simp only [hv]
      constructor
      · intro h
        injection h with h
        exact ⟨by omega, by simpa using h2, trivial, h⟩
      · rintro ⟨-, -, -, h⟩
        rw [h]

theorem validateWarehouseOrder_error_holds (w : WarehouseOrder) (v : Violation) :
    validateWarehouseOrder w = .error v → violationHolds v w = true := by
  rw [validateWarehouseOrder]
  split_ifs with h1 h2 <;> intro h
  · cases h; simp [violationHolds, h1]
  · cases h; simp [violationHolds, h2]
  · cases hv : firstLineViolation w.lineItems with
    | none => rw [hv] at h; cases h
    | some v0 =>
      rw [hv] at h
      cases h
      obtain ⟨li, hm, hli⟩ := firstLineViolation_some _ _ hv
      have hh := lineItemViolation_some_holds li _ hli
      cases v with
      | currencyLength => simp [liViolationHolds] at hh
      | emptyLineItems => simp [liViolationHolds] at hh
      | quantityNotPositive => exact List.any_eq_true.mpr ⟨li, hm, hh⟩
      | unitPriceNegative => exact List.any_eq_true.mpr ⟨li, hm, hh⟩
      | totalPriceNegative => exact List.any_eq_true.mpr ⟨li, hm, hh⟩
      | totalPriceMismatch => exact List.any_eq_true.mpr ⟨li, hm, hh⟩

/-- The result of the transformation on a present document, as a single
conditional expression. -/
theorem transform_result_some (od : EcommerceOrder) (pid : String) (t : Nat) :
    (map_order_to_wms_payload (some od) pid t).result =
      if (od._id.getD "").isEmpty then .error .invalidInput
      else if od.items.isEmpty then .error .noItems
      else if (buildLineItems 0 od.items).isEmpty then .error .noValidItems
      else
        match validateWarehouseOrder (buildPayload od t) with
        | .ok o => .ok o
        | .error v => .error (.validationError v) := by
  rw [map_order_to_wms_payload]
  split_ifs with h1 h2 h3 <;> simp_all
  cases hv : validateWarehouseOrder (buildPayload od t) <;> simp [hv]

theorem buildLineItems_mem_of_get (items : List Item) (start i : Nat) (item : Item)
    (hget : items.get? i = some item) (hsku : itemHasSku item = true) :
    mkLineItem (start + i) item ∈ buildLineItems start items := by
  induction items generalizing start i with
  | nil => cases hget
  | cons x rest ih =>
    cases i with
    | zero =>
      rw [List.get?] at hget
      cases hget
      rw [buildLineItems, if_pos hsku]
      exact List.mem_cons_self _ _
    | succ j =>
      rw [List.get?] at hget
      have hmem := ih (start + 1) j hget
      have harith : start + 1 + j = start + (j + 1) := by omega
      rw [harith] at hmem
      rw [buildLineItems]
      split_ifs with hx
      · exact List.mem_cons_of_mem _ hmem
      · exact hmem

theorem buildLineItems_mem (items : List Item) (start : Nat) (li : OrderLineItem)
    (hmem : li ∈ buildLineItems start items) :
    ∃ i item, items.get? i = some item ∧ itemHasSku item = true ∧
      li = mkLineItem (start + i) item := by
  induction items generalizing start with
  | nil => cases hmem
  | cons x rest ih =>
    rw [buildLineItems] at hmem
    split_ifs at hmem with hx
    · cases hmem with
      | head => exact ⟨0, x, rfl, hx, by rw [Nat.add_zero]⟩
      | tail _ ht =>
        obtain ⟨j, item, hget, hsku, heq⟩ := ih (start + 1) ht
        exact ⟨j + 1, item, hget, hsku, by rw [heq]; congr 1; omega⟩
    · obtain ⟨j, item, hget, hsku, heq⟩ := ih (start + 1) hmem
      exact ⟨j + 1, item, hget, hsku, by rw [heq]; congr 1; omega⟩

theorem skipWarnings_mem (pid : String) (items : List Item) (line : String)
    (hmem : line ∈ skipWarnings pid items) : ∃ m, line = tag pid m := by
  induction items with
  | nil => cases hmem
  | cons x rest ih =>
    rw [skipWarnings] at hmem
    split_ifs at hmem with hx
    · exact ih hmem
    · cases hmem with
      | head => exact ⟨_, rfl⟩
      | tail _ ht => exact ih ht

theorem buildLineItems_nil_of_noSku (items : List Item) (start : Nat)
    (h : ∀ item ∈ items, itemHasSku item = false) : buildLineItems start items = [] := by
  induction items generalizing start with
  | nil => rw [buildLineItems]
  | cons x rest ih =>
    rw [buildLineItems, if_neg]
    · exact ih (start + 1) (fun item hm => h item (List.mem_cons_of_mem x hm))
    · simp [h x (List.mem_cons_self x rest)]

theorem transform_ok_dest (od : EcommerceOrder) (pid : String) (t : Nat) (o : WarehouseOrder)
    (hok : (map_order_to_wms_payload (some od) pid t).result = .ok o) :
    validateWarehouseOrder (buildPayload od t) = .ok o := by
  rw [transform_result_some] at hok
  by_cases h1 : (od._id.getD "").isEmpty = true
  · rw [if_pos h1] at hok; exact Except.noConfusion hok
  · rw [if_neg h1] at hok
    by_cases h2 : od.items.isEmpty = true
    · rw [if_pos h2] at hok; exact Except.noConfusion hok
    · rw [if_neg h2] at hok
      by_cases h3 : (buildLineItems 0 od.items).isEmpty = true
      · rw [if_pos h3] at hok; exact Except.noConfusion hok
      · rw [if_neg h3] at hok
        cases hval : validateWarehouseOrder (buildPayload od t) with
        | ok o' => rw [hval] at hok; simpa using hok
        | error v => rw [hval] at hok; exact Except.noConfusion hok

theorem transform_ok_shape (od : EcommerceOrder) (pid : String) (t : Nat) (o : WarehouseOrder)
    (hok : (map_order_to_wms_payload (some od) pid t).result = .ok o) :
    o = { buildPayload od t with currency := pyUpper (buildPayload od t).currency } := by
  obtain ⟨-, -, -, hshape⟩ :=
    (validateWarehouseOrder_ok_iff _ _).mp (transform_ok_dest od pid t o hok)
  exact hshape.symm

theorem transform_ok_lineItems (od : EcommerceOrder) (pid : String) (t : Nat)
    (o : WarehouseOrder)
    (hok : (map_order_to_wms_payload (some od) pid t).result = .ok o) :
    o.lineItems = buildLineItems 0 od.items := by
  rw [transform_ok_shape od pid t o hok]
  rfl

/-- The log lines printed on a present document, by control-flow branch. -/
theorem transform_log_shape (od : EcommerceOrder) (pid : String) (t : Nat) :
    (map_order_to_wms_payload (some od) pid t).log =
      tag pid "INFO: Mapping e-commerce order to warehouse format..." ::
        (if (od._id.getD "").isEmpty then [errLine pid "Invalid order data provided"]
        else if od.items.isEmpty then [errLine pid "No items found in order"]
        else if (buildLineItems 0 od.items).isEmpty then
          skipWarnings pid od.items ++ [errLine pid "No valid line items after processing"]
        else
          skipWarnings pid od.items ++
            [if (validateWarehouseOrder (buildPayload od t)).isOk = true then
              tag pid "SUCCESS: Order mapped and validated"
            else errLine pid "Failed to map order data"]) := by
  rw [map_order_to_wms_payload]
  by_cases h1 : (od._id.getD "").isEmpty = true
  · simp only [if_pos h1]
  · simp only [if_neg h1]
    by_cases h2 : od.items.isEmpty = true
    · simp only [if_pos h2]
    · simp only [if_neg h2]
      by_cases h3 : (buildLineItems 0 od.items).isEmpty = true
      · simp only [if_pos h3, List.cons_append]
      · simp only [if_neg h3]
        cases hv : validateWarehouseOrder (buildPayload od t) with
        | ok o => simp [hv, Except.isOk, Except.toBool]
        | error v => simp [hv, Except.isOk, Except.toBool]

theorem char_toUpper_idem (c : Char) : c.toUpper.toUpper = c.toUpper := by
  by_cases h : 97 ≤ c.toNat ∧ c.toNat ≤ 122
  case neg =>
    have h1 : c.toUpper = c := by simp only [Char.toUpper]; rw [if_neg h]
    rw [h1]; exact h1
  case pos =>
    have h1 : c.toUpper = Char.ofNat (c.toNat - 32) := by
      simp only [Char.toUpper]; rw [if_pos h]
    have hv : (c.toNat - 32).isValidChar := Or.inl (by omega)
    have ht : (Char.ofNat (c.toNat - 32)).toNat = c.toNat - 32 := by
      rw [Char.ofNat, dif_pos hv]; rfl
    rw [h1]
    conv_lhs => simp only [Char.toUpper]
    rw [ht]
    exact if_neg (by omega)

theorem pyUpper_idem (s : String) : pyUpper (pyUpper s) = pyUpper s := by
  show (⟨(s.data.map Char.toUpper).map Char.toUpper⟩ : String) = ⟨s.data.map Char.toUpper⟩
  rw [List.map_map]
  exact congrArg String.mk (List.map_congr_left (fun a _ => char_toUpper_idem a))

theorem pyUpper_length (s : String) : (pyUpper s).length = s.length := by
  show (s.data.map Char.toUpper).length = s.data.length
  exact List.length_map s.data Char.toUpper

/-- A contact snapshot with every key absent. -/
def emptySnapshot : ContactSnapshot :=
  { id := none, firstName := none, lastName := none, email := none, phone := none,
    address1 := none, address2 := none, city := none, postalCode := none, country := none }

/-- First item of the gap example: no SKU. -/
def itemNoSku : Item :=
  { name := some "Mystery", qty := some 1, price := some { sku := none, amount := some 5 } }

/-- Second item of the gap example: SKU `"A"`, qty 2, price 10.0. -/
def itemA : Item :=
  { name := some "Widget", qty := some 2, price := some { sku := some "A", amount := some 10 } }

/-- The two-item upstream order of the spec's gap-numbering example. -/
def gapDoc : EcommerceOrder :=
  { _id := some "ORD-1", contactSnapshot := emptySnapshot, items := [itemNoSku, itemA],
    amount := none, currency := none, notes := none }

instance : Inhabited WarehouseOrder :=
  ⟨{ warehouseId := "", orderNumber := "", deliveryDate := 0, orderNotes := none,
     totalValue := none, currency := "", shippingAddress :=
       { customerNumber := "", name := "", address1 := none, address2 := none,
         postalCode := "", city := "", countryCode := "",
         phoneNotification := { enabled := false, value := none },
         emailNotification := { enabled := false, value := none } },
     lineItems := [], shippingMethod := "", priority := "" }⟩

/-- The order produced from `gapDoc`. -/
def gapOrder : WarehouseOrder :=
  ((map_order_to_wms_payload (some gapDoc) "p" 0).result.toOption).getD default

/-- `gapDoc` with the non-letter three-character upstream currency `"123"`. -/
def currencyDoc : EcommerceOrder := { gapDoc with currency := some "123" }

/-- `gapDoc` with an empty item list. -/
def noItemsDoc : EcommerceOrder := { gapDoc with items := [] }

/-- `gapDoc` whose only item lacks a SKU. -/
def noSkuDoc : EcommerceOrder := { gapDoc with items := [itemNoSku] }

/-- `gapDoc` with a present phone and a present-but-empty email. -/
def contactDoc : EcommerceOrder :=
  { gapDoc with contactSnapshot :=
      { emptySnapshot with phone := some "+1-555-0123", email := some "" } }

/-- The order produced from `contactDoc`. -/
def contactOrder : WarehouseOrder :=
  ((map_order_to_wms_payload (some contactDoc) "p" 0).result.toOption).getD default

/-!
The claims.
-/

/-- Claim C1: for every upstream order document accepted by the
transformation and every item in it that carries a SKU, the produced order
contains the corresponding line item, whose quantity is the item's `qty`
(default 1), whose `unitPrice` is the item's price amount (default 0), and
whose `totalPrice` is `round(unitPrice * quantity, 2)`. -/
theorem transform_line_item_fields :
    ∀ (od : EcommerceOrder) (pid : String) (t : Nat) (o : WarehouseOrder) (i : Nat)
      (item : Item),
      (map_order_to_wms_payload (some od) pid t).result = .ok o →
      od.items.get? i = some item →
      itemHasSku item = true →
      mkLineItem i item ∈ o.lineItems ∧
        mkLineItem i item =
          { lineNumber := i + 1,
            productSku := (itemSku item).getD "",
            quantity := item.qty.getD 1,
            productName := item.name.getD "Unknown Product",
            unitPrice := itemAmount item,
            totalPrice := roundTo2 (itemAmount item * (item.qty.getD 1 : ℚ)) } := by
  intro od pid t o i item hok hget hsku
  constructor
  · rw [transform_ok_lineItems od pid t o hok]
    have hmem := buildLineItems_mem_of_get od.items 0 i item hget hsku
    rwa [Nat.zero_add] at hmem
  · rw [mkLineItem, qMul_eq]

theorem transform_line_item_fields_witness :
    (map_order_to_wms_payload (some gapDoc) "p" 0).result = .ok gapOrder ∧
      gapDoc.items.get? 1 = some itemA ∧ itemHasSku itemA = true ∧
      (mkLineItem 1 itemA ∈ gapOrder.lineItems ∧
        mkLineItem 1 itemA =
          { lineNumber := 1 + 1,
            productSku := (itemSku itemA).getD "",
            quantity := itemA.qty.getD 1,
            productName := itemA.name.getD "Unknown Product",
            unitPrice := itemAmount itemA,
            totalPrice := roundTo2 (itemAmount itemA * (itemA.qty.getD 1 : ℚ)) }) :=
  ⟨by decide, by decide, by decide,
    transform_line_item_fields gapDoc "p" 0 gapOrder 1 itemA (by decide) (by decide) (by decide)⟩

/-- Claim C2: every order the transformation returns satisfies all
data-model invariants (non-empty line items; each with positive quantity,
non-negative unit and total price, and total within 0.01 of
`quantity * unitPrice`), and when construction-time validation fails the
transformation fails with a `validationError` carrying a violation that
actually holds of the constructed payload; no partially-valid order is
ever returned. -/
theorem transform_valid_or_validation_error :
    ∀ (data : Option EcommerceOrder) (pid : String) (t : Nat),
      (∀ o, (map_order_to_wms_payload data pid t).result = .ok o → orderValid o = true) ∧
      (∀ od v, data = some od →
        (map_order_to_wms_payload data pid t).result = .error (.validationError v) →
        violationHolds v (buildPayload od t) = true) := by
  intro data pid t
  constructor
  · intro o hok
    cases data with
    | none => simp [map_order_to_wms_payload] at hok
    | some od =>
      obtain ⟨hlen, hne, hfv, hshape⟩ :=
        (validateWarehouseOrder_ok_iff _ _).mp (transform_ok_dest od pid t o hok)
      rw [← hshape]
      show (!(buildPayload od t).lineItems.isEmpty
        && (buildPayload od t).lineItems.all lineItemValid) = true
      simp only [Bool.and_eq_true, Bool.not_eq_true', List.all_eq_true]
      exact ⟨hne, fun li hm =>
        (lineItemViolation_none_iff li).mp (firstLineViolation_none _ hfv li hm)⟩
  · intro od v hdata herr
    subst hdata
    rw [transform_result_some] at herr
    by_cases h1 : (od._id.getD "").isEmpty = true
    · rw [if_pos h1] at herr; simp at herr
    · rw [if_neg h1] at herr
      by_cases h2 : od.items.isEmpty = true
      · rw [if_pos h2] at herr; simp at herr
      · rw [if_neg h2] at herr
        by_cases h3 : (buildLineItems 0 od.items).isEmpty = true
        · rw [if_pos h3] at herr; simp at herr
        · rw [if_neg h3] at herr
          cases hval : validateWarehouseOrder (buildPayload od t) with
          | ok o' => rw [hval] at herr; simp at herr
          | error v0 =>
            rw [hval] at herr
            simp only [Except.error.injEq, TransformError.validationError.injEq] at herr
            rw [← herr]
            exact validateWarehouseOrder_error_holds _ _ hval

theorem transform_valid_or_validation_error_witness :
    (map_order_to_wms_payload (some gapDoc) "p" 0).result = .ok gapOrder ∧
      orderValid gapOrder = true :=
  ⟨by decide,
    (transform_valid_or_validation_error (some gapDoc) "p" 0).1 gapOrder (by decide)⟩

/-- Claim C3: every produced line item's `lineNumber` is the 1-based
position of its source item in the original item sequence (so items
skipped for lacking a SKU leave gaps); in particular the two-item input
whose first item has no SKU and whose second has SKU `"A"`, qty 2 and
price 10.0 yields exactly one line item, numbered 2. -/
theorem transform_lineNumber_positions :
    (∀ (od : EcommerceOrder) (pid : String) (t : Nat) (o : WarehouseOrder),
      (map_order_to_wms_payload (some od) pid t).result = .ok o →
      ∀ li ∈ o.lineItems, ∃ i item, od.items.get? i = some item ∧
        itemHasSku item = true ∧ li.lineNumber = i + 1) ∧
    ((map_order_to_wms_payload (some gapDoc) "p" 0).result.toOption.map
      (fun o => o.lineItems.map (fun li => li.lineNumber)) = some [2]) := by
  constructor
  · intro od pid t o hok li hm
    rw [transform_ok_lineItems od pid t o hok] at hm
    obtain ⟨i, item, hget, hsku, heq⟩ := buildLineItems_mem od.items 0 li hm
    refine ⟨i, item, hget, hsku, ?_⟩
    rw [heq]
    simp [mkLineItem]
  · decide

theorem transform_lineNumber_positions_witness :
    (map_order_to_wms_payload (some gapDoc) "p" 0).result = .ok gapOrder ∧
      mkLineItem 1 itemA ∈ gapOrder.lineItems ∧
      (∃ i item, gapDoc.items.get? i = some item ∧ itemHasSku item = true ∧
        (mkLineItem 1 itemA).lineNumber = i + 1) :=
  ⟨by decide, by decide,
    transform_lineNumber_positions.1 gapDoc "p" 0 gapOrder (by decide)
      (mkLineItem 1 itemA) (by decide)⟩

/-- Claim C4: for every upstream document carrying a (non-empty)
identifier, an empty item list is rejected with `noItems`, and a non-empty
item list in which every item lacks a SKU is rejected with the distinct
error `noValidItems`; in both cases no order is produced. -/
theorem transform_noItems_noValidItems :
    ∀ (od : EcommerceOrder) (pid : String) (t : Nat) (s : String),
      od._id = some s → s ≠ "" →
      (od.items = [] →
        (map_order_to_wms_payload (some od) pid t).result = .error .noItems) ∧
      (od.items ≠ [] → (∀ item ∈ od.items, itemHasSku item = false) →
        (map_order_to_wms_payload (some od) pid t).result = .error .noValidItems) := by
  intro od pid t s hid hs
  have hidne : (od._id.getD "").isEmpty = false := by
    rw [hid]
    show s.isEmpty = false
    rw [Bool.eq_false_iff]
    intro he
    exact hs ((String.isEmpty_iff s).mp he)
  constructor
  · intro hempty
    rw [transform_result_some]
    simp [hidne, hempty]
  · intro hne hall
    have hne' : od.items.isEmpty = false := by
      cases h : od.items with
      | nil => exact absurd h hne
      | cons x xs => rfl
    have hbl : buildLineItems 0 od.items = [] := buildLineItems_nil_of_noSku od.items 0 hall
    rw [transform_result_some]
    simp [hidne, hne', hbl]

theorem transform_noItems_noValidItems_witness :
    noItemsDoc._id = some "ORD-1" ∧ "ORD-1" ≠ "" ∧ noItemsDoc.items = [] ∧
      (map_order_to_wms_payload (some noItemsDoc) "p" 0).result = .error .noItems ∧
      noSkuDoc.items ≠ [] ∧ (∀ item ∈ noSkuDoc.items, itemHasSku item = false) ∧
      (map_order_to_wms_payload (some noSkuDoc) "p" 0).result = .error .noValidItems :=
  ⟨rfl, by decide, rfl,
    (transform_noItems_noValidItems noItemsDoc "p" 0 "ORD-1" rfl (by decide)).1 rfl,
    by decide, by decide,
    (transform_noItems_noValidItems noSkuDoc "p" 0 "ORD-1" rfl (by decide)).2
      (by decide) (by decide)⟩

/-- Claim C5: the country-code resolver is total and pure; an absent or
empty input yields `"US"`; an input of exactly two alphabetic characters
is returned upper-cased verbatim; any other input is looked up
case-insensitively in the fixed mapping table, with `"US"` on a miss; and
the five stated examples hold. -/
theorem get_country_code_spec :
    (∀ c : Option String, c = none ∨ c = some "" → get_country_code c = "US") ∧
    (∀ s : String, s.length = 2 → pyIsAlpha s = true →
      get_country_code (some s) = pyUpper s) ∧
    (∀ s : String, s.isEmpty = false → (s.length = 2 && pyIsAlpha s) = false →
      get_country_code (some s) = (COUNTRY_CODE_MAP.lookup (pyLower s)).getD "US") ∧
    get_country_code (some "Sweden") = "SE" ∧
    get_country_code (some "sweden") = "SE" ∧
    get_country_code (some "xx") = "XX" ∧
    get_country_code none = "US" ∧
    get_country_code (some "Atlantis") = "US" := by
  refine ⟨?_, ?_, ?_, by decide, by decide, by decide, by decide, by decide⟩
  · rintro c (rfl | rfl)
    · rfl
    · decide
  · intro s hlen halpha
    have h1 : s.isEmpty = false := by
      rw [Bool.eq_false_iff]
      intro he
      rw [(String.isEmpty_iff s).mp he] at hlen
      exact absurd hlen (by decide)
    rw [get_country_code]
    simp [h1, hlen, halpha]
  · intro s hempty hcond
    rw [get_country_code]
    simp [hempty, hcond]

theorem get_country_code_spec_witness :
    "xx".length = 2 ∧ pyIsAlpha "xx" = true ∧
      get_country_code (some "xx") = pyUpper "xx" :=
  ⟨by decide, by decide, get_country_code_spec.2.1 "xx" (by decide) (by decide)⟩

/-- Claim C6 counterexample: the upstream currency `"123"` is accepted and
propagated, so the produced currency is not made of three uppercase
letters. -/
theorem transform_currency_not_letters_cex :
    ((map_order_to_wms_payload (some currencyDoc) "p" 0).result.toOption.map
      (fun o => (o.currency, o.currency.data.all Char.isUpper))) =
      some ("123", false) := by decide

/-- Claim C6 (amended): every produced order's currency has exactly 3
characters and is the upper-casing of the upstream currency (so it
contains no lowercase letters, though not necessarily letters at all),
and equals `"USD"` when the upstream currency is absent. -/
theorem transform_currency_amended :
    ∀ (od : EcommerceOrder) (pid : String) (t : Nat) (o : WarehouseOrder),
      (map_order_to_wms_payload (some od) pid t).result = .ok o →
      o.currency.length = 3 ∧ o.currency = pyUpper (od.currency.getD "USD") ∧
        (od.currency = none → o.currency = "USD") := by
  intro od pid t o hok
  obtain ⟨hlen, -, -, hshape⟩ :=
    (validateWarehouseOrder_ok_iff _ _).mp (transform_ok_dest od pid t o hok)
  have hcur : o.currency = pyUpper (buildPayload od t).currency := by
    rw [← hshape]
  have hbp : (buildPayload od t).currency = pyUpper (od.currency.getD "USD") := rfl
  refine ⟨?_, ?_, ?_⟩
  · rw [hcur, pyUpper_length]
    exact hlen
  · rw [hcur, hbp, pyUpper_idem]
  · intro hnone
    rw [hcur, hbp, hnone]
    decide

theorem transform_currency_amended_witness :
    (map_order_to_wms_payload (some gapDoc) "p" 0).result = .ok gapOrder ∧
      (gapOrder.currency.length = 3 ∧
        gapOrder.currency = pyUpper (gapDoc.currency.getD "USD") ∧
        (gapDoc.currency = none → gapOrder.currency = "USD")) :=
  ⟨by decide, transform_currency_amended gapDoc "p" 0 gapOrder (by decide)⟩

/-- Claim C7: in every produced order, the phone notification is enabled
iff the upstream phone is present and non-empty and its value is exactly
the upstream phone; likewise for the email notification. -/
theorem transform_notifications_spec :
    ∀ (od : EcommerceOrder) (pid : String) (t : Nat) (o : WarehouseOrder),
      (map_order_to_wms_payload (some od) pid t).result = .ok o →
      ((o.shippingAddress.phoneNotification.enabled = true) ↔
        ∃ p, od.contactSnapshot.phone = some p ∧ p ≠ "") ∧
      o.shippingAddress.phoneNotification.value = od.contactSnapshot.phone ∧
      ((o.shippingAddress.emailNotification.enabled = true) ↔
        ∃ e, od.contactSnapshot.email = some e ∧ e ≠ "") ∧
      o.shippingAddress.emailNotification.value = od.contactSnapshot.email := by
  intro od pid t o hok
  have hshape := transform_ok_shape od pid t o hok
  have hphoneE : o.shippingAddress.phoneNotification.enabled
      = !(od.contactSnapshot.phone.getD "").isEmpty := by rw [hshape]; rfl
  have hphoneV : o.shippingAddress.phoneNotification.value
      = od.contactSnapshot.phone := by rw [hshape]; rfl
  have hemailE : o.shippingAddress.emailNotification.enabled
      = !(od.contactSnapshot.email.getD "").isEmpty := by rw [hshape]; rfl
  have hemailV : o.shippingAddress.emailNotification.value
      = od.contactSnapshot.email := by rw [hshape]; rfl
  refine ⟨?_, hphoneV, ?_, hemailV⟩
  · rw [hphoneE]
    cases hp : od.contactSnapshot.phone with
    | none => simp [String.isEmpty_iff]
    | some p => simp [Bool.eq_false_iff, String.isEmpty_iff]
  · rw [hemailE]
    cases hp : od.contactSnapshot.email with
    | none => simp [String.isEmpty_iff]
    | some e => simp [Bool.eq_false_iff, String.isEmpty_iff]

theorem transform_notifications_spec_witness :
    (map_order_to_wms_payload (some contactDoc) "p" 0).result = .ok contactOrder ∧
      (((contactOrder.shippingAddress.phoneNotification.enabled = true) ↔
        ∃ p, contactDoc.contactSnapshot.phone = some p ∧ p ≠ "") ∧
      contactOrder.shippingAddress.phoneNotification.value
        = contactDoc.contactSnapshot.phone ∧
      ((contactOrder.shippingAddress.emailNotification.enabled = true) ↔
        ∃ e, contactDoc.contactSnapshot.email = some e ∧ e ≠ "") ∧
      contactOrder.shippingAddress.emailNotification.value
        = contactDoc.contactSnapshot.email) :=
  ⟨by decide, transform_notifications_spec contactDoc "p" 0 contactOrder (by decide)⟩

/-- Claim C8: the transformation is total — every failure is a returned
error result, never an exception — every log line it prints is tagged with
the correlation id, and every failure leaves a tagged `ERROR` log line. -/
theorem transform_failures_reported :
    ∀ (data : Option EcommerceOrder) (pid : String) (t : Nat),
      (∀ line ∈ (map_order_to_wms_payload data pid t).log, ∃ m, line = tag pid m) ∧
      (∀ e, (map_order_to_wms_payload data pid t).result = .error e →
        ∃ m, errLine pid m ∈ (map_order_to_wms_payload data pid t).log) := by
  intro data pid t
  cases data with
  | none =>
    constructor
    · intro line hm
      simp only [map_order_to_wms_payload, List.mem_cons, List.not_mem_nil, or_false] at hm
      rcases hm with rfl | rfl
      · exact ⟨_, rfl⟩
      · exact ⟨_, rfl⟩
    · intro e _
      exact ⟨"Invalid order data provided",
        List.mem_cons_of_mem _ (List.mem_cons_self _ _)⟩
  | some od =>
    constructor
    · intro line hm
      rw [transform_log_shape, List.mem_cons] at hm
      rcases hm with rfl | hm
      · exact ⟨_, rfl⟩
      split_ifs at hm with h1 h2 h3 h4
      · simp only [List.mem_cons, List.not_mem_nil, or_false] at hm
        subst hm; exact ⟨_, rfl⟩
      · simp only [List.mem_cons, List.not_mem_nil, or_false] at hm
        subst hm; exact ⟨_, rfl⟩
      · rcases List.mem_append.mp hm with h | h
        · exact skipWarnings_mem pid od.items line h
        · simp only [List.mem_cons, List.not_mem_nil, or_false] at h
          subst h; exact ⟨_, rfl⟩
      · rcases List.mem_append.mp hm with h | h
        · exact skipWarnings_mem pid od.items line h
        · simp only [List.mem_cons, List.not_mem_nil, or_false] at h
          subst h; exact ⟨_, rfl⟩
      · rcases List.mem_append.mp hm with h | h
        · exact skipWarnings_mem pid od.items line h
        · simp only [List.mem_cons, List.not_mem_nil, or_false] at h
          subst h; exact ⟨_, rfl⟩
    · intro e herr
      rw [transform_result_some] at herr
      rw [transform_log_shape]
      by_cases h1 : (od._id.getD "").isEmpty = true
      · rw [if_pos h1]
        exact ⟨"Invalid order data provided", by simp⟩
      · rw [if_neg h1] at herr ⊢
        by_cases h2 : od.items.isEmpty = true
        · rw [if_pos h2]
          exact ⟨"No items found in order", by simp⟩
        · rw [if_neg h2] at herr ⊢
          by_cases h3 : (buildLineItems 0 od.items).isEmpty = true
          · rw [if_pos h3]
            exact ⟨"No valid line items after processing", by simp⟩
          · rw [if_neg h3] at herr ⊢
            cases hval : validateWarehouseOrder (buildPayload od t) with
            | ok o' => rw [hval] at herr; simp at herr
            | error v =>
              refine ⟨"Failed to map order data", ?_⟩
              simp [Except.isOk, Except.toBool]

theorem transform_failures_reported_witness :
    (∃ m, tag "p" "INFO: Mapping e-commerce order to warehouse format..." = tag "p" m) ∧
      (∃ m, errLine "p" m ∈ (map_order_to_wms_payload none "p" 0).log) :=
  ⟨(transform_failures_reported none "p" 0).1 _ (by decide),
    (transform_failures_reported none "p" 0).2 .invalidInput (by decide)⟩

/-- Claim C9: the transformation is deterministic — on identical inputs
(document, correlation id and current date) it produces identical
results. -/
theorem transform_deterministic :
    ∀ (d1 d2 : Option EcommerceOrder) (pid1 pid2 : String) (t1 t2 : Nat),
      d1 = d2 → pid1 = pid2 → t1 = t2 →
      map_order_to_wms_payload d1 pid1 t1 = map_order_to_wms_payload d2 pid2 t2 := by
  intro d1 d2 pid1 pid2 t1 t2 h1 h2 h3
  rw [h1, h2, h3]

theorem transform_deterministic_witness :
    map_order_to_wms_payload (some gapDoc) "p" 0
      = map_order_to_wms_payload (some gapDoc) "p" 0 :=
  transform_deterministic (some gapDoc) (some gapDoc) "p" "p" 0 0 rfl rfl rfl

/-- Claim C10: an accepted document whose customer snapshot lacks a postal
code or a city does not make the transformation fail; the produced
shipping address defaults them to `"00000"` and `"Unknown City"`. -/
theorem transform_missing_postal_city_defaults :
    ∀ (od : EcommerceOrder) (pid : String) (t : Nat) (o : WarehouseOrder),
      (map_order_to_wms_payload (some od) pid t).result = .ok o →
      (od.contactSnapshot.postalCode = none →
        o.shippingAddress.postalCode = "00000") ∧
      (od.contactSnapshot.city = none → o.shippingAddress.city = "Unknown City") := by
  intro od pid t o hok
  have hshape := transform_ok_shape od pid t o hok
  constructor
  · intro hp
    rw [hshape]
    show od.contactSnapshot.postalCode.getD "00000" = "00000"
    rw [hp]
    rfl
  · intro hc
    rw [hshape]
    show od.contactSnapshot.city.getD "Unknown City" = "Unknown City"
    rw [hc]
    rfl

theorem transform_missing_postal_city_defaults_witness :
    (map_order_to_wms_payload (some gapDoc) "p" 0).result = .ok gapOrder ∧
      gapDoc.contactSnapshot.postalCode = none ∧
      gapOrder.shippingAddress.postalCode = "00000" ∧
      gapDoc.contactSnapshot.city = none ∧
      gapOrder.shippingAddress.city = "Unknown City" :=
  ⟨by decide, rfl,
    (transform_missing_postal_city_defaults gapDoc "p" 0 gapOrder (by decide)).1 rfl,
    rfl,
    (transform_missing_postal_city_defaults gapDoc "p" 0 gapOrder (by decide)).2 rfl⟩

end IntegrationService
